import Mathlib

/-!
Shallow embedding of `src/connect4.py`, a rules engine for a Connect-Four
variant on a 7-column board with drop and pop moves, together with theorems
settling the specification claims about `apply_move` and `check_victory`.

The board is a flat list of cells, row-major with the bottom row first
(`NOTE 1` in the source).  Cells hold `0` (empty), `1` (`YELLOW`) or `2`
(`RED`).  Python lists of ints are embedded as `List Nat`; Python's
`board[i]` accesses in `check_victory` are always in bounds for the indices
the loops produce, so they are embedded with `List.getD` (default `0`).
-/

namespace Connect4

/-- `YELLOW = 1` in the source. -/
def YELLOW : Nat := 1

/-- `RED = 2` in the source. -/
def RED : Nat := 2

/-- `COLS = 7` in the source: there are always 7 columns. -/
def COLS : Nat := 7

/-- Cell access `board[i]`, embedded with default `0` (all accesses that
`check_victory` performs are in bounds). -/
def getCell (board : List Nat) (i : Nat) : Nat := board.getD i 0

/-- `num_rows = len(board) // COLS`. -/
def numRows (board : List Nat) : Nat := board.length / COLS

/-- Python's `list.copy()`: a freshly built list with the same elements,
embedded structurally. -/
def listCopy (l : List Nat) : List Nat :=
  match l with
  | [] => []
  | x :: xs => x :: listCopy xs

/-- `apply_move(board, turn, col, pop)` from the source: the body is
`return board.copy()`. -/
def apply_move (board : List Nat) (turn : Nat) (col : Nat) (pop : Bool) :
    List Nat :=
  listCopy board

/-- The pair of mutable flags `yellow_wins` / `red_wins` threaded through
`check_victory`. -/
structure Flags where
  yellow_wins : Bool
  red_wins : Bool
deriving DecidableEq, Repr

/-- The repeated branch
`if streak_piece == YELLOW: yellow_wins = True elif streak_piece == RED: red_wins = True`. -/
def recordWin (flags : Flags) (streak_piece : Nat) : Flags :=
  if streak_piece = YELLOW then { flags with yellow_wins := true }
  else if streak_piece = RED then { flags with red_wins := true }
  else flags

/-- One iteration of the streak scan shared by all four orientations in
`check_victory`: state is `(flags, streak_piece, index_of_streak_start)`,
`pos` is the loop position (`col`, `row` or `diagonal_idx`) and `piece` the
cell read there.  On a streak break the source checks
`streak_piece != 0 and pos - index_of_streak_start + 1 == 4` before
recording a win and resetting the streak. -/
def lineStep (s : Flags × Nat × Nat) (pos : Nat) (piece : Nat) :
    Flags × Nat × Nat :=
  if piece ≠ s.2.1 then
    let flags :=
      if s.2.1 ≠ 0 ∧ pos - s.2.2 + 1 = 4 then recordWin s.1 s.2.1 else s.1
    (flags, piece, pos)
  else s

/-- The horizontal scan of one row (`for col in range(COLS)`), followed by
the trailing check `streak_piece != 0 and 6 + 1 - index_of_streak_start == 4`. -/
def scanRow (board : List Nat) (row : Nat) (flags : Flags) : Flags :=
  let s := (List.range COLS).foldl
    (fun s col => lineStep s col (getCell board (row * 7 + col)))
    (flags, 0, 0)
  if s.2.1 ≠ 0 ∧ 6 + 1 - s.2.2 = 4 then recordWin s.1 s.2.1 else s.1

/-- The horizontal pass: `for row in range(num_rows)`. -/
def scanHoriz (board : List Nat) (flags : Flags) : Flags :=
  (List.range (numRows board)).foldl (fun f row => scanRow board row f) flags

/-- The vertical scan of one column (`for row in range(num_rows)`),
followed by the trailing check
`streak_piece != 0 and 5 + 1 - index_of_streak_start == 4` (the literal `5`
is as in the source). -/
def scanCol (board : List Nat) (col : Nat) (flags : Flags) : Flags :=
  let s := (List.range (numRows board)).foldl
    (fun s row => lineStep s row (getCell board (row * 7 + col)))
    (flags, 0, 0)
  if s.2.1 ≠ 0 ∧ 5 + 1 - s.2.2 = 4 then recordWin s.1 s.2.1 else s.1

/-- The vertical pass: `for col in range(COLS)`. -/
def scanVert (board : List Nat) (flags : Flags) : Flags :=
  (List.range COLS).foldl (fun f col => scanCol board col f) flags

/-- One up-left diagonal from the bottom-right point `(row, col)`.  The
source's `while row + diagonal_idx < num_rows and col - diagonal_idx >= 0`
runs `diagonal_idx` over exactly `min (num_rows - row) (col + 1)` values
(both guard conjuncts are monotone in `diagonal_idx`), reading
`board[(row + diagonal_idx) * 7 + col - diagonal_idx]`; the trailing check
is `streak_piece != 0 and num_rows - row - index_of_streak_start == 4`. -/
def scanDiagUpLeft (board : List Nat) (row col : Nat) (flags : Flags) :
    Flags :=
  let num_rows := numRows board
  let s := (List.range (min (num_rows - row) (col + 1))).foldl
    (fun s idx => lineStep s idx (getCell board ((row + idx) * 7 + col - idx)))
    (flags, 0, 0)
  if s.2.1 ≠ 0 ∧ num_rows - row - s.2.2 = 4 then recordWin s.1 s.2.1 else s.1

/-- The up-left diagonal pass over the starting coordinates
`[(0, x) for x in range(3, COLS)] + [(x, COLS - 1) for x in range(1, num_rows - 3)]`. -/
def scanUpLeftDiags (board : List Nat) (flags : Flags) : Flags :=
  let num_rows := numRows board
  let starting_coords :=
    ((List.range (COLS - 3)).map (fun x => (0, x + 3))) ++
      ((List.range (num_rows - 4)).map (fun x => (x + 1, COLS - 1)))
  starting_coords.foldl (fun f rc => scanDiagUpLeft board rc.1 rc.2 f) flags

/-- One up-right diagonal from the bottom-left point `(row, col)`.  The
source's `while row + diagonal_idx < num_rows and col + diagonal_idx < COLS`
runs `diagonal_idx` over exactly `min (num_rows - row) (COLS - col)` values,
reading `board[(row + diagonal_idx) * 7 + col + diagonal_idx]`; the trailing
check is `streak_piece != 0 and num_rows - row - index_of_streak_start == 4`. -/
def scanDiagUpRight (board : List Nat) (row col : Nat) (flags : Flags) :
    Flags :=
  let num_rows := numRows board
  let s := (List.range (min (num_rows - row) (COLS - col))).foldl
    (fun s idx => lineStep s idx (getCell board ((row + idx) * 7 + col + idx)))
    (flags, 0, 0)
  if s.2.1 ≠ 0 ∧ num_rows - row - s.2.2 = 4 then recordWin s.1 s.2.1 else s.1

/-- The up-right diagonal pass over the starting coordinates
`[(0, x) for x in range(COLS - 4, -1, -1)] + [(x, 0) for x in range(1, num_rows - 3)]`. -/
def scanUpRightDiags (board : List Nat) (flags : Flags) : Flags :=
  let num_rows := numRows board
  let starting_coords :=
    ((List.range (COLS - 3)).map (fun x => (0, COLS - 4 - x))) ++
      ((List.range (num_rows - 4)).map (fun x => (x + 1, 0)))
  starting_coords.foldl (fun f rc => scanDiagUpRight board rc.1 rc.2 f) flags

/-- The full scanning phase of `check_victory`: horizontals always, then
verticals and both diagonal passes only when `num_rows >= 4`. -/
def scanFlags (board : List Nat) : Flags :=
  let flags := scanHoriz board ⟨false, false⟩
  if numRows board ≥ 4 then
    scanUpRightDiags board (scanUpLeftDiags board (scanVert board flags))
  else flags

/-- The final resolution of `check_victory`:
`if yellow_wins and red_wins: return 3 - who_played`, else the single
winner, else `0`. -/
def resolveFlags (flags : Flags) (who_played : Nat) : Nat :=
  if flags.yellow_wins ∧ flags.red_wins then 3 - who_played
  else if flags.yellow_wins then YELLOW
  else if flags.red_wins then RED
  else 0

/-- `check_victory(board, who_played)` from the source. -/
def check_victory (board : List Nat) (who_played : Nat) : Nat :=
  resolveFlags (scanFlags board) who_played

/-- Occupied-cell count of a column: the number of rows whose cell in that
column is non-empty. -/
def colCount (board : List Nat) (col : Nat) : Nat :=
  ((List.range (numRows board)).filter
    (fun row => getCell board (row * 7 + col) ≠ 0)).length

/-- A 4-row board on which the scan records a win for both colors: a
trailing horizontal yellow four in the bottom row (columns 3–6) and an
up-right red diagonal four through (0,0), (1,1), (2,2), (3,3). -/
def boardDoubleWin : List Nat :=
  [2, 0, 0, 1, 1, 1, 1,
   0, 2, 0, 0, 0, 0, 0,
   0, 0, 2, 0, 0, 0, 0,
   0, 0, 0, 2, 0, 0, 0]

/-- A 3-row board whose column 0 is entirely yellow. -/
def boardThreeRows : List Nat :=
  [1, 0, 0, 0, 0, 0, 0,
   1, 0, 0, 0, 0, 0, 0,
   1, 0, 0, 0, 0, 0, 0]

/-- `listCopy` returns a list with exactly the input's elements. -/
theorem listCopy_eq (l : List Nat) : listCopy l = l := by
  induction l with
  | nil => rfl
  | cons x xs ih => simp [listCopy, ih]

/-- Claim C1: whenever the scanning phase of `check_victory` records a
qualifying run for both YELLOW and RED, and `who_played` is 1 or 2, the
result is the opponent of the mover, computed as `3 - who_played`. -/
theorem check_victory_double_win (board : List Nat) (who_played : Nat)
    (hw : who_played = 1 ∨ who_played = 2)
    (hy : (scanFlags board).yellow_wins = true)
    (hr : (scanFlags board).red_wins = true) :
    check_victory board who_played = 3 - who_played := by
  simp [check_victory, resolveFlags, hy, hr]

/-- Claim C1 witness: on `boardDoubleWin`, where a horizontal four for
YELLOW and a diagonal four for RED are both found, the mover YELLOW loses:
`check_victory boardDoubleWin YELLOW = RED`. -/
theorem check_victory_double_win_witness :
    (1 = 1 ∨ 1 = 2) ∧ (scanFlags boardDoubleWin).yellow_wins = true ∧
      (scanFlags boardDoubleWin).red_wins = true ∧
      check_victory boardDoubleWin YELLOW = RED :=
  ⟨Or.inl rfl, by decide, by decide,
    check_victory_double_win boardDoubleWin 1 (Or.inl rfl) (by decide)
      (by decide)⟩

/-- Claim C2 failing input: dropping YELLOW into column 0 of the empty
one-row board returns the board unchanged — no piece is placed and the
column's occupied-cell count stays 0 instead of increasing to 1. -/
theorem apply_move_drop_eval :
    apply_move [0, 0, 0, 0, 0, 0, 0] 1 0 false = [0, 0, 0, 0, 0, 0, 0] ∧
      colCount (apply_move [0, 0, 0, 0, 0, 0, 0] 1 0 false) 0 = 0 := by
  decide

/-- Claim C3 failing input: popping column 0 of a one-row board whose
bottom cell holds a piece returns the board unchanged — the piece at row 0
is still there and the column's occupied-cell count does not decrease. -/
theorem apply_move_pop_eval :
    apply_move [1, 0, 0, 0, 0, 0, 0] 2 0 true = [1, 0, 0, 0, 0, 0, 0] ∧
      getCell (apply_move [1, 0, 0, 0, 0, 0, 0] 2 0 true) 0 = 1 ∧
      colCount (apply_move [1, 0, 0, 0, 0, 0, 0] 2 0 true) 0 = 1 := by
  decide

/-- Claim C4 failing input: on the one-row board `[1,1,1,1,0,2,2]` the
four-long yellow run breaks at column 4, where the source checks
`4 - 0 + 1 == 4` and misses it, so `check_victory` returns 0, not YELLOW. -/
theorem check_victory_row_four_eval :
    check_victory [1, 1, 1, 1, 0, 2, 2] RED = 0 := by decide

/-- Claim C5 failing input: a horizontal run of five yellow pieces is not
recorded as a win (the break check fires only when `pos - start + 1 == 4`),
whereas a trailing run of exactly four in the same orientation is. -/
theorem check_victory_five_run_eval :
    check_victory [1, 1, 1, 1, 1, 0, 0] 2 = 0 ∧
      check_victory [0, 0, 0, 1, 1, 1, 1] 2 = YELLOW := by decide

/-- Claim C6 failing input: the one-row board `[0,1,1,1,1,0,2]` has four
consecutive yellow pieces (columns 1–4) and no red four anywhere, yet
`check_victory` returns 0 for either value of `who_played`. -/
theorem check_victory_yellow_four_eval :
    check_victory [0, 1, 1, 1, 1, 0, 2] 1 = 0 ∧
      check_victory [0, 1, 1, 1, 1, 0, 2] 2 = 0 := by decide

/-- Claim C7: on a board with fewer than 4 rows the scanning phase is the
horizontal pass alone — the vertical and diagonal passes never run — so no
vertical line can ever produce a win there. -/
theorem check_victory_no_vertical_small (board : List Nat) (who_played : Nat)
    (h : numRows board < 4) :
    scanFlags board = scanHoriz board ⟨false, false⟩ ∧
      check_victory board who_played =
        resolveFlags (scanHoriz board ⟨false, false⟩) who_played := by
  have h4 : ¬ numRows board ≥ 4 := by omega
  refine ⟨?_, ?_⟩ <;> simp [check_victory, scanFlags, h4]

/-- Claim C7 witness: the 3-row board whose column 0 is entirely yellow
reports no winner — its full column contributes nothing. -/
theorem check_victory_no_vertical_small_witness :
    numRows boardThreeRows < 4 ∧
      (scanFlags boardThreeRows = scanHoriz boardThreeRows ⟨false, false⟩ ∧
        check_victory boardThreeRows 2 =
          resolveFlags (scanHoriz boardThreeRows ⟨false, false⟩) 2) :=
  ⟨by decide, check_victory_no_vertical_small boardThreeRows 2 (by decide)⟩

/-- Claim C8 failing input: after the stub "drop" of YELLOW into the empty
column 0, the column still holds 0 pieces rather than exactly one; the
drop-then-pop round trip does return the original board, but only because
both calls are identity copies. -/
theorem drop_then_pop_eval :
    colCount (apply_move [0, 0, 0, 0, 0, 0, 0] 1 0 false) 0 = 0 ∧
      apply_move (apply_move [0, 0, 0, 0, 0, 0, 0] 1 0 false) 1 0 true =
        [0, 0, 0, 0, 0, 0, 0] := by decide

/-- Claim C9: for every board, turn, column and pop flag, `apply_move`
returns a list with exactly the input board's element sequence — the
reference implementation is an identity copy that never inserts or removes
a piece. -/
theorem apply_move_identity (board : List Nat) (turn col : Nat) (pop : Bool) :
    apply_move board turn col pop = board :=
  listCopy_eq board

/-- Claim C10: for every board and `who_played ∈ {1, 2}`, `check_victory`
returns 0, 1 or 2 and nothing else. -/
theorem check_victory_range (board : List Nat) (who_played : Nat)
    (hw : who_played = 1 ∨ who_played = 2) :
    check_victory board who_played = 0 ∨ check_victory board who_played = 1 ∨
      check_victory board who_played = 2 := by
  rcases hw with h | h <;> subst h <;>
    simp only [check_victory, resolveFlags, YELLOW, RED] <;>
    split_ifs <;> simp

/-- Claim C10 witness: on a concrete board with a detected yellow run the
result is among {0, 1, 2}. -/
theorem check_victory_range_witness :
    (2 = 1 ∨ 2 = 2) ∧
      (check_victory [1, 1, 1, 0, 0, 0, 0] 2 = 0 ∨
        check_victory [1, 1, 1, 0, 0, 0, 0] 2 = 1 ∨
        check_victory [1, 1, 1, 0, 0, 0, 0] 2 = 2) :=
  ⟨Or.inr rfl, check_victory_range [1, 1, 1, 0, 0, 0, 0] 2 (Or.inr rfl)⟩

end Connect4
